import Mathlib

/-!
Shallow embedding of the IPP client orchestration layer of `pyipp`
(`src/pyipp/ipp.py` and `src/pyipp/const.py`), together with models of the
external collaborators it calls into (the `deepmerge.always_merger` library
merge, the `yarl.URL` parse of `ipp://` / `ipps://` printer URIs, and the
response structure produced by the message Parser described in the spec).
Python dictionaries are embedded as ordered association lists over a
JSON-like value type, preserving insertion order, since attribute order in
the built request is significant.
-/

/-- A Python value as it occurs in the request/response dictionaries of
`ipp.py`: strings, integers, booleans, the `(major, minor)` version tuple,
`None`, lists and (ordered) dictionaries. -/
inductive JVal where
  | null : JVal
  | str : String → JVal
  | int : Int → JVal
  | bool : Bool → JVal
  | tup : Nat × Nat → JVal
  | list : List JVal → JVal
  | dict : List (String × JVal) → JVal

/-- An ordered Python dictionary with string keys: insertion-ordered
association list, as Python `dict` preserves insertion order. -/
abbrev AttrMap := List (String × JVal)

/-- Python dictionary lookup `m.get(k)` on the ordered association list. -/
def lookupA (k : String) : AttrMap → Option JVal
  | [] => none
  | (k0, v) :: rest => if k0 = k then some v else lookupA k rest

/-- Python dictionary assignment `m[k] = v`: replaces the value in place
when the key exists (keeping its position), otherwise appends the new pair
at the end, exactly as Python `dict` insertion order behaves. -/
def setKey : AttrMap → String → JVal → AttrMap
  | [], k, v => [(k, v)]
  | (k0, v0) :: rest, k, v =>
      if k0 = k then (k0, v) :: rest else (k0, v0) :: setKey rest k v

mutual

/-- Model of `deepmerge.always_merger.merge(base, nxt)`: dictionaries are
merged recursively, lists are concatenated (`append` strategy), and any
other combination (same non-container type, or a type conflict) resolves
by overriding with the value from `nxt`. -/
def mergeVal : JVal → JVal → JVal
  | JVal.dict b, JVal.dict n => JVal.dict (mergeEntries b n)
  | JVal.list b, JVal.list n => JVal.list (b ++ n)
  | _, n => n
termination_by _ n => sizeOf n

/-- The dictionary strategy of `deepmerge.always_merger`: iterate over the
entries of `nxt` in order; a key already in `base` gets the merged value at
its existing position, a fresh key is appended. -/
def mergeEntries : AttrMap → AttrMap → AttrMap
  | b, [] => b
  | b, (k, v) :: rest =>
      mergeEntries
        (setKey b k (match lookupA k b with
          | some bv => mergeVal bv v
          | none => v))
        rest
termination_by _ n => sizeOf n

end

/-- How one entry of `nxt` combines with the value already present in
`base` (if any) under `always_merger`. -/
def mergeInto : Option JVal → JVal → JVal
  | some bv, v => mergeVal bv v
  | none, v => v

theorem mergeEntries_nil (b : AttrMap) : mergeEntries b [] = b := by
  rw [mergeEntries]

theorem mergeEntries_cons (b : AttrMap) (k : String) (v : JVal) (rest : AttrMap) :
    mergeEntries b ((k, v) :: rest) =
      mergeEntries (setKey b k (mergeInto (lookupA k b) v)) rest := by
  rw [mergeEntries]
  cases h : lookupA k b <;> simp [mergeInto, h]

theorem mergeVal_dict (b n : List (String × JVal)) :
    mergeVal (JVal.dict b) (JVal.dict n) = JVal.dict (mergeEntries b n) := by
  rw [mergeVal]

theorem mergeVal_str (s : String) (v : JVal) : mergeVal (JVal.str s) v = v := by
  cases v <;> (rw [mergeVal] <;> simp)

theorem mergeVal_null (v : JVal) : mergeVal JVal.null v = v := by
  cases v <;> (rw [mergeVal] <;> simp)

theorem lookupA_setKey (b : AttrMap) (k k0 : String) (v : JVal) :
    lookupA k (setKey b k0 v) = if k0 = k then some v else lookupA k b := by
  induction b with
  | nil => simp [setKey, lookupA]
  | cons hd tl ih =>
    obtain ⟨k1, v1⟩ := hd
    by_cases h1 : k1 = k0
    · subst h1
      by_cases h2 : k1 = k <;> simp [setKey, lookupA, h2]
    · by_cases h2 : k1 = k
      · subst h2
        have : k0 ≠ k1 := fun h => h1 h.symm
        simp [setKey, lookupA, h1, this]
      · simp [setKey, lookupA, h1, h2, ih]

theorem lookupA_eq_none_of_not_mem (k : String) (n : AttrMap)
    (h : k ∉ n.map Prod.fst) : lookupA k n = none := by
  induction n with
  | nil => rfl
  | cons hd tl ih =>
    obtain ⟨k0, v0⟩ := hd
    simp only [List.map_cons, List.mem_cons] at h
    push_neg at h
    have : k0 ≠ k := fun e => h.1 e.symm
    simp [lookupA, this, ih h.2]

theorem lookupA_mergeEntries_of_none (n : AttrMap) (b : AttrMap) (k : String)
    (h : lookupA k n = none) :
    lookupA k (mergeEntries b n) = lookupA k b := by
  induction n generalizing b with
  | nil => rw [mergeEntries_nil]
  | cons hd tl ih =>
    obtain ⟨k0, v0⟩ := hd
    have hk : k0 ≠ k := by
      intro e
      subst e
      simp [lookupA] at h
    have h' : lookupA k tl = none := by
      simpa [lookupA, hk] using h
    rw [mergeEntries_cons, ih _ h', lookupA_setKey]
    simp [hk]

theorem lookupA_mergeEntries_of_some (n : AttrMap) (b : AttrMap) (k : String) (v : JVal)
    (hnd : (n.map Prod.fst).Nodup) (h : lookupA k n = some v) :
    lookupA k (mergeEntries b n) = some (mergeInto (lookupA k b) v) := by
  induction n generalizing b with
  | nil => simp [lookupA] at h
  | cons hd tl ih =>
    obtain ⟨k0, v0⟩ := hd
    simp only [List.map_cons, List.nodup_cons] at hnd
    by_cases hk : k0 = k
    · subst hk
      have hv : v0 = v := by simpa [lookupA] using h
      subst hv
      have hnone : lookupA k0 tl = none :=
        lookupA_eq_none_of_not_mem k0 tl hnd.1
      rw [mergeEntries_cons, lookupA_mergeEntries_of_none tl _ _ hnone, lookupA_setKey]
      simp
    · have h' : lookupA k tl = some v := by
        simpa [lookupA, hk] using h
      rw [mergeEntries_cons, ih _ hnd.2 h', lookupA_setKey]
      simp [hk]

theorem setKey_keys_extend (b : AttrMap) (k : String) (v : JVal) :
    b.map Prod.fst <+: (setKey b k v).map Prod.fst := by
  induction b with
  | nil => exact ⟨[k], rfl⟩
  | cons hd tl ih =>
    obtain ⟨k0, v0⟩ := hd
    by_cases h : k0 = k
    · simp [setKey, h]
    · obtain ⟨t, ht⟩ := ih
      exact ⟨t, by simp [setKey, h, ht]⟩

theorem mergeEntries_keys_extend (n : AttrMap) (b : AttrMap) :
    b.map Prod.fst <+: (mergeEntries b n).map Prod.fst := by
  induction n generalizing b with
  | nil => rw [mergeEntries_nil]
  | cons hd tl ih =>
    obtain ⟨k, v⟩ := hd
    rw [mergeEntries_cons]
    exact (setKey_keys_extend b k _).trans (ih _)

/-- `const.py`: `DEFAULT_CHARSET = "utf-8"`. -/
def DEFAULT_CHARSET : String := "utf-8"

/-- `const.py`: `DEFAULT_CHARSET_LANGUAGE = "en-US"`. -/
def DEFAULT_CHARSET_LANGUAGE : String := "en-US"

/-- `const.py`: `DEFAULT_PROTO_VERSION = (2, 0)`. -/
def DEFAULT_PROTO_VERSION : Nat × Nat := (2, 0)

/-- `const.py`: `DEFAULT_PORT = 631`. -/
def DEFAULT_PORT : Nat := 631

/-- `const.py`: `DEFAULT_PRINTER_ATTRIBUTES`, the attribute names requested
by `IPP.printer`. -/
def DEFAULT_PRINTER_ATTRIBUTES : List String :=
  ["printer-device-id", "printer-name", "printer-type", "printer-location",
   "printer-info", "printer-make-and-model", "printer-state",
   "printer-state-message", "printer-state-reason", "printer-supply",
   "printer-up-time", "printer-uri-supported", "device-uri",
   "printer-is-shared", "printer-more-info", "printer-firmware-string-version",
   "marker-colors", "marker-high-levels", "marker-levels", "marker-low-levels",
   "marker-names", "marker-types", "document-format-supported",
   "printer-resolution-default", "printer-resolution-supported",
   "pwg-raster-document-resolution-supported",
   "pwg-raster-document-type-supported", "media-supported",
   "compression-supported", "sides-default", "sides-supported",
   "print-quality-default", "finishings-default",
   "orientation-requested-default", "print-quality-supported",
   "finishings-supported", "orientation-requested-supported",
   "operations-supported"]

/-- Modelled from the spec: `enums.IppOperation` is not under src/; the spec
only needs operation identifiers as opaque 2-byte operation-id codes, so the
operations used by the client are embedded as the standardized IPP
operation-id code points. `Get-Jobs`. -/
def GET_JOBS : Int := 0x000A

/-- Modelled from the spec: `enums.IppOperation.GET_JOB_ATTRIBUTES`
(see `GET_JOBS`). -/
def GET_JOB_ATTRIBUTES : Int := 0x0009

/-- Modelled from the spec: `enums.IppOperation.GET_PRINTER_ATTRIBUTES`
(see `GET_JOBS`). -/
def GET_PRINTER_ATTRIBUTES : Int := 0x000B

/-- Modelled from the spec: `enums.IppStatus.ERROR_VERSION_NOT_SUPPORTED` is
not under src/. The spec's status-code discussion fixes the generic-error
boundary at `0x0200` and distinguishes the "unsupported protocol version"
status, which is the protocol's `server-error-version-not-supported` code
`0x0503`. -/
def ERROR_VERSION_NOT_SUPPORTED : Int := 0x0503

/-- The operation-attributes defaults of the base template built by
`IPP._message` (ipp.py lines 178-183), in source order. -/
def opAttributesBase (printerUri : String) : AttrMap :=
  [("attributes-charset", JVal.str DEFAULT_CHARSET),
   ("attributes-natural-language", JVal.str DEFAULT_CHARSET_LANGUAGE),
   ("printer-uri", JVal.str printerUri),
   ("requesting-user-name", JVal.str "PythonIPP")]

/-- The full base template of `IPP._message` (ipp.py lines 174-184):
version, operation, `None` request-id placeholder, operation attributes. -/
def requestBase (ver : Nat × Nat) (printerUri : String) (operation : Int) : AttrMap :=
  [("version", JVal.tup ver),
   ("operation", JVal.int operation),
   ("request-id", JVal.null),
   ("operation-attributes-tag", JVal.dict (opAttributesBase printerUri))]

/-- `IPP._message` (ipp.py lines 172-186): deep-merge the caller-supplied
message into the base template via `always_merger.merge(base, msg)`. -/
def message (ver : Nat × Nat) (printerUri : String) (operation : Int)
    (msg : AttrMap) : AttrMap :=
  mergeEntries (requestBase ver printerUri operation) msg

/-- The value chained into the raised `IPPParseError`: the textual identity
of the underlying exception raised by `parse_response`. -/
abbrev ParseFailure := String

/-- The exceptions `IPP.execute` can raise after the response bytes were
received (`exceptions.py` is orchestration; the constructors carry the data
the source attaches: the chained cause for `IPPParseError`, the offending
status-code for `IPPError`). -/
inductive IPPException where
  | IPPParseError (cause : ParseFailure) : IPPException
  | IPPVersionNotSupportedError : IPPException
  | IPPError (statusCode : Int) : IPPException

/-- Modelled from the spec: `parser.parse` is not under src/; per spec §4.6
and §6 its output is a structured result with the status-code, the
operation-attributes mapping, and named sequences of per-object attribute
mappings (`jobs`, `printers`). Fields irrelevant to the claims (version,
request-id) are omitted. -/
structure ParsedResponse where
  statusCode : Int
  operationAttributes : AttrMap := []
  jobs : List AttrMap := []
  printers : List AttrMap := []

/-- The response-handling tail of `IPP.execute` (ipp.py lines 198-215):
a failed parse becomes a single `IPPParseError` chaining the cause; then a
status-code equal to `ERROR_VERSION_NOT_SUPPORTED` raises
`IPPVersionNotSupportedError`; then a status-code outside `range(0x200)`
raises a generic `IPPError`; otherwise the parsed result is returned. -/
def executeResponse (pr : Except ParseFailure ParsedResponse) :
    Except IPPException ParsedResponse :=
  match pr with
  | Except.error e => Except.error (IPPException.IPPParseError e)
  | Except.ok parsed =>
    if parsed.statusCode = ERROR_VERSION_NOT_SUPPORTED then
      Except.error IPPException.IPPVersionNotSupportedError
    else if ¬ (0 ≤ parsed.statusCode ∧ parsed.statusCode < 0x200) then
      Except.error (IPPException.IPPError parsed.statusCode)
    else
      Except.ok parsed

/-- The transport-and-parse stage of one request: sending the encoded
message and parsing the received bytes, abstracted as a function from the
built request structure to the parse outcome. -/
abbrev NetFn := AttrMap → Except ParseFailure ParsedResponse

/-- `IPP.execute` (ipp.py lines 188-215): build the request via `_message`,
send it, then handle the parse outcome and status-code. -/
def execute (net : NetFn) (ver : Nat × Nat) (printerUri : String)
    (operation : Int) (msg : AttrMap) : Except IPPException ParsedResponse :=
  executeResponse (net (message ver printerUri operation msg))

/-- The caller message of `IPP.get_jobs` (ipp.py lines 277-285). -/
def get_jobs_msg (which_jobs : String) : AttrMap :=
  [("operation-attributes-tag",
    JVal.dict [("which-jobs", JVal.str which_jobs),
               ("requested-attributes", JVal.str "all")])]

/-- `IPP.get_jobs` (ipp.py lines 271-287): execute `Get-Jobs` with the
given `which_jobs` (defaulting to `"not-completed"`) and return the parsed
result's `jobs` sequence. -/
def get_jobs (net : NetFn) (ver : Nat × Nat) (printerUri : String)
    (which_jobs : String := "not-completed") :
    Except IPPException (List AttrMap) :=
  (execute net ver printerUri GET_JOBS (get_jobs_msg which_jobs)).map
    (fun r => r.jobs)

/-- `IPP.get_all_jobs` (ipp.py lines 289-300): fetch the not-completed jobs
(default `which_jobs`) and the completed jobs, returning the first sequence
followed by the second. The `asyncio.TaskGroup` only runs the two
already-built coroutines; the combined value is
`not_completed_data.result() + completed_res.result()`. -/
def get_all_jobs (net : NetFn) (ver : Nat × Nat) (printerUri : String) :
    Except IPPException (List AttrMap) := do
  let not_completed_data ← get_jobs net ver printerUri
  let completed_res ← get_jobs net ver printerUri "completed"
  pure (not_completed_data ++ completed_res)

/-- The caller message of `IPP.get_job_attributes` (ipp.py lines 307-315). -/
def get_job_attributes_msg (job_id : Int) : AttrMap :=
  [("operation-attributes-tag",
    JVal.dict [("job-id", JVal.int job_id),
               ("requested-attributes", JVal.str "all")])]

/-- `IPP.get_job_attributes` (ipp.py lines 302-317): execute
`Get-Job-Attributes` for the job ID and return the parsed result's `jobs`
sequence. -/
def get_job_attributes (net : NetFn) (ver : Nat × Nat) (printerUri : String)
    (job_id : Int) : Except IPPException (List AttrMap) :=
  (execute net ver printerUri GET_JOB_ATTRIBUTES
    (get_job_attributes_msg job_id)).map (fun r => r.jobs)

/-- The caller message of `IPP.get_printer_attributes` (ipp.py lines
342-349). -/
def get_printer_attributes_msg : AttrMap :=
  [("operation-attributes-tag",
    JVal.dict [("requested-attributes", JVal.str "all")])]

/-- The caller message of `IPP.printer` (ipp.py lines 364-371), requesting
`DEFAULT_PRINTER_ATTRIBUTES`. -/
def printer_msg : AttrMap :=
  [("operation-attributes-tag",
    JVal.dict [("requested-attributes",
      JVal.list (DEFAULT_PRINTER_ATTRIBUTES.map JVal.str))])]

/-- Modelled from the spec: `models.Printer` is not under src/; the spec
treats it as an orchestration-layer object built from a decoded per-printer
attribute mapping, so it is embedded as a record of the attribute mapping
most recently applied to it. -/
structure PrinterM where
  data : AttrMap

/-- Modelled from the spec: `models.Printer.from_dict` (not under src/)
builds a fresh `Printer` from a decoded attribute mapping. -/
def Printer_from_dict (m : AttrMap) : PrinterM := ⟨m⟩

/-- Modelled from the spec: `models.Printer.update_from_dict` (not under
src/) applies a freshly decoded attribute mapping to an existing `Printer`
in place. -/
def Printer_update_from_dict (_p : PrinterM) (m : AttrMap) : PrinterM := ⟨m⟩

/-- The `_printer` cache update of `IPP.printer` (ipp.py lines 373-384):
take the first element of the parsed `printers` sequence (an empty mapping
when the sequence is empty), then either build a fresh `Printer` into the
empty cache or update the cached one; the updated cache value is also the
returned `Printer`. Returns `(returned printer, new cache)`. -/
def printer_step (cache : Option PrinterM) (r : ParsedResponse) :
    PrinterM × Option PrinterM :=
  let parsed : AttrMap := (r.printers.head?).getD []
  match cache with
  | none =>
    let p := Printer_from_dict parsed
    (p, some p)
  | some p0 =>
    let p := Printer_update_from_dict p0 parsed
    (p, some p)

/-- `IPP.printer` (ipp.py lines 362-384): execute `Get-Printer-Attributes`
with `DEFAULT_PRINTER_ATTRIBUTES`, then run the `_printer` cache update on
the parsed result. -/
def printer (net : NetFn) (ver : Nat × Nat) (printerUri : String)
    (cache : Option PrinterM) :
    Except IPPException (PrinterM × Option PrinterM) :=
  (execute net ver printerUri GET_PRINTER_ATTRIBUTES printer_msg).map
    (printer_step cache)

/-- The connection-parameter fields of the `IPP` dataclass that
`__post_init__` (ipp.py lines 66-81) reads and writes. -/
structure IPPConfig where
  host : String
  base_path : String := "/ipp/print"
  port : Nat := 631
  tls : Bool := false
  printer_uri : String := ""
  deriving DecidableEq

/-- The outcome of `yarl.URL(...)` on a printer URI: scheme, optional host,
optional explicit port, path. -/
structure UriParts where
  scheme : String
  host : Option String
  port : Option Nat
  path : String
  deriving DecidableEq

/-- Python `str.startswith`, evaluated on the underlying character list. -/
def strStartsWith (s p : String) : Bool := p.data.isPrefixOf s.data

/-- Split a character list at every occurrence of the separator, like
Python `str.split(sep)`: the empty input yields one empty piece, and
adjacent separators yield empty pieces. -/
def splitChar (sep : Char) : List Char → List (List Char)
  | [] => [[]]
  | c :: rest =>
    let r := splitChar sep rest
    if c = sep then [] :: r
    else (c :: r.headD []) :: r.tail

/-- Decimal port parsing: all-digit nonempty text to its numeric value. -/
def charsToNat? (l : List Char) : Option Nat :=
  if l ≠ [] ∧ l.all Char.isDigit then
    some (l.foldl (fun a c => a * 10 + (c.toNat - 48)) 0)
  else none

/-- Model of `yarl.URL` applied to a string beginning `ipp://` or
`ipps://`: the scheme is the text before `://`; the authority (up to the
first `/`) splits into host and optional explicit port (`yarl` has no
default port registered for the `ipp`/`ipps` schemes, so `URL.port` is the
explicit port or `None`); the path is everything from the first `/` on,
with the empty path reading back as `/`. -/
def parse_printer_uri (s : String) : UriParts :=
  let isIpps := strStartsWith s "ipps://"
  let scheme : String := if isIpps then "ipps" else "ipp"
  let rest := s.data.drop (if isIpps then 7 else 6)
  let segs := splitChar '/' rest
  let authority := segs.headD []
  let path := String.mk ('/' :: List.intercalate ['/'] segs.tail)
  let hostPort : List Char × Option Nat :=
    match splitChar ':' authority with
    | [h] => (h, none)
    | [h, p] => (h, charsToNat? p)
    | _ => (authority, none)
  { scheme := scheme,
    host := if hostPort.1 = [] then none else some (String.mk hostPort.1),
    port := hostPort.2,
    path := path }

/-- `IPP._build_printer_uri` (ipp.py lines 162-170): `yarl.URL.build` from
scheme (`ipps` when `tls` else `ipp`), host, port and base path, rendered
via `human_repr` (which keeps the explicit port, as `ipp`/`ipps` have no
registered default port). -/
def build_printer_uri (c : IPPConfig) : String :=
  (if c.tls then "ipps" else "ipp") ++ "://" ++ c.host ++ ":" ++
    toString c.port ++ c.base_path

/-- `IPP.__post_init__` (ipp.py lines 66-81): for a host beginning `ipp://`
or `ipps://`, keep the original string as the printer URI and take host,
port (each only when present in the URI), TLS flag (scheme equality with
`ipps`) and base path from the parsed URI; otherwise build the printer URI
from the configured fields. The user-agent defaulting of lines 83-84 is
environment-dependent (package version) and orthogonal to the connection
parameters, so it is not part of this model. -/
def post_init (c : IPPConfig) : IPPConfig :=
  if strStartsWith c.host "ipp://" || strStartsWith c.host "ipps://" then
    let u := parse_printer_uri c.host
    { c with
      printer_uri := c.host,
      host := u.host.getD c.host,
      port := u.port.getD c.port,
      tls := u.scheme == "ipps",
      base_path := u.path }
  else
    { c with printer_uri := build_printer_uri c }

/-- Claim C1: for every parsed response, `execute` raises
`IPPVersionNotSupportedError` when the decoded status-code equals
`ERROR_VERSION_NOT_SUPPORTED`; otherwise it raises a generic `IPPError`
exactly when the decoded status-code is outside `0 <= s < 0x0200`, and for
every status-code inside that range it returns the parsed result. -/
theorem execute_status_policy (parsed : ParsedResponse) :
    (parsed.statusCode = ERROR_VERSION_NOT_SUPPORTED →
      executeResponse (Except.ok parsed) =
        Except.error IPPException.IPPVersionNotSupportedError) ∧
    (parsed.statusCode ≠ ERROR_VERSION_NOT_SUPPORTED →
      ((0 ≤ parsed.statusCode ∧ parsed.statusCode < 0x200) →
        executeResponse (Except.ok parsed) = Except.ok parsed) ∧
      (¬ (0 ≤ parsed.statusCode ∧ parsed.statusCode < 0x200) →
        executeResponse (Except.ok parsed) =
          Except.error (IPPException.IPPError parsed.statusCode))) := by
  refine ⟨fun h => ?_, fun h => ⟨fun hin => ?_, fun hout => ?_⟩⟩
  · simp [executeResponse, h]
  · obtain ⟨h1, h2⟩ := hin
    simp [executeResponse, h, h1, h2]
  · simp [executeResponse, h, hout]

/-- Witness for C1 at the status-codes 0x0503 (version not supported),
0 (successful-ok, in range) and 0x0300 (out of range). -/
theorem execute_status_policy_witness :
    executeResponse (Except.ok { statusCode := 0x0503 }) =
        Except.error IPPException.IPPVersionNotSupportedError ∧
    executeResponse (Except.ok { statusCode := 0 }) =
        Except.ok { statusCode := 0 } ∧
    executeResponse (Except.ok { statusCode := 0x0300 }) =
        Except.error (IPPException.IPPError 0x0300) :=
  ⟨(execute_status_policy { statusCode := 0x0503 }).1 (by decide),
   ((execute_status_policy { statusCode := 0 }).2 (by decide)).1 (by decide),
   ((execute_status_policy { statusCode := 0x0300 }).2 (by decide)).2 (by decide)⟩

/-- Claim C3: when parsing the response raises any exception, `execute`
raises exactly one `IPPParseError` chaining the underlying exception and
produces no other result; when parsing succeeds, no `IPPParseError` is
raised on any status-code path. -/
theorem execute_parse_failure_policy :
    (∀ e : ParseFailure, executeResponse (Except.error e) =
      Except.error (IPPException.IPPParseError e)) ∧
    (∀ (parsed : ParsedResponse) (e : ParseFailure),
      executeResponse (Except.ok parsed) ≠
        Except.error (IPPException.IPPParseError e)) := by
  constructor
  · intro e
    rfl
  · intro parsed e h
    by_cases h1 : parsed.statusCode = ERROR_VERSION_NOT_SUPPORTED
    · simp [executeResponse, h1] at h
    · by_cases h2 : (0 : Int) ≤ parsed.statusCode ∧ parsed.statusCode < 0x200
      · obtain ⟨ha, hb⟩ := h2
        simp [executeResponse, h1, ha, hb] at h
      · simp [executeResponse, h1, h2] at h

/-- Witness for C3: a failing parse of corrupt bytes yields the single
chained `IPPParseError`, and a successful parse never does. -/
theorem execute_parse_failure_policy_witness :
    executeResponse (Except.error "malformed message") =
        Except.error (IPPException.IPPParseError "malformed message") ∧
    executeResponse (Except.ok { statusCode := 0 }) ≠
        Except.error (IPPException.IPPParseError "malformed message") :=
  ⟨execute_parse_failure_policy.1 "malformed message",
   execute_parse_failure_policy.2 { statusCode := 0 } "malformed message"⟩

/-- Claim C2: the request structure built by `_message` has an
operation-attributes-tag mapping whose first two entries, in order, are
attributes-charset followed by attributes-natural-language, whatever
attributes the caller's mapping (a Python dict, hence with distinct keys)
adds or overrides under that group. -/
theorem message_opattrs_first_two (ver : Nat × Nat) (uri : String) (op : Int)
    (msg : AttrMap) (hnd : (msg.map Prod.fst).Nodup)
    (hm : lookupA "operation-attributes-tag" msg = none ∨
      ∃ m, lookupA "operation-attributes-tag" msg = some (JVal.dict m)) :
    ∃ d, lookupA "operation-attributes-tag" (message ver uri op msg) =
        some (JVal.dict d) ∧
      (d.map Prod.fst).take 2 =
        ["attributes-charset", "attributes-natural-language"] := by
  unfold message
  rcases hm with hm | ⟨m, hm⟩
  · refine ⟨opAttributesBase uri, ?_, rfl⟩
    rw [lookupA_mergeEntries_of_none _ _ _ hm]
    rfl
  · refine ⟨mergeEntries (opAttributesBase uri) m, ?_, ?_⟩
    · rw [lookupA_mergeEntries_of_some _ _ _ _ hnd hm]
      have hb : lookupA "operation-attributes-tag" (requestBase ver uri op) =
          some (JVal.dict (opAttributesBase uri)) := rfl
      rw [hb]
      simp [mergeInto, mergeVal_dict]
    · obtain ⟨t, ht⟩ := mergeEntries_keys_extend m (opAttributesBase uri)
      rw [← ht]
      rfl

/-- Witness for C2 at the `Get-Jobs` caller message, which overrides
nothing and adds `which-jobs` and `requested-attributes`. -/
theorem message_opattrs_first_two_witness :
    ∃ d, lookupA "operation-attributes-tag"
        (message DEFAULT_PROTO_VERSION "ipp://myhost:631/ipp/print" GET_JOBS
          (get_jobs_msg "completed")) = some (JVal.dict d) ∧
      (d.map Prod.fst).take 2 =
        ["attributes-charset", "attributes-natural-language"] :=
  message_opattrs_first_two _ _ _ _ (by decide) (Or.inr ⟨_, rfl⟩)

/-- Counterexample to claim C4 as stated: with no explicit IPP version
configured, the `Get-Printer-Attributes` request built by `_message`
carries `DEFAULT_PROTO_VERSION`, which is `(2, 0)` — not the claimed
version 1.1 (wire bytes `0x01 0x01`). -/
theorem default_version_counterexample :
    lookupA "version"
        (message DEFAULT_PROTO_VERSION "ipp://myhost:631/ipp/print"
          GET_PRINTER_ATTRIBUTES get_printer_attributes_msg) =
      some (JVal.tup DEFAULT_PROTO_VERSION) ∧
    DEFAULT_PROTO_VERSION ≠ (1, 1) := by
  constructor
  · unfold message
    rw [lookupA_mergeEntries_of_none _ _ _
      (show lookupA "version" get_printer_attributes_msg = none from rfl)]
    rfl
  · decide

/-- Claim C4 amended: every `Get-Printer-Attributes` request carries the
client's configured IPP version, and the default configuration
(`DEFAULT_PROTO_VERSION`) is version 2.0, wire bytes `0x02 0x00`. -/
theorem message_version_from_config (ver : Nat × Nat) (uri : String) :
    lookupA "version"
        (message ver uri GET_PRINTER_ATTRIBUTES get_printer_attributes_msg) =
      some (JVal.tup ver) ∧
    DEFAULT_PROTO_VERSION = (2, 0) := by
  constructor
  · unfold message
    rw [lookupA_mergeEntries_of_none _ _ _
      (show lookupA "version" get_printer_attributes_msg = none from rfl)]
    rfl
  · rfl

/-- A string-valued default of the operation-attributes base template is
overridden by the caller's value when present and kept otherwise. -/
theorem merged_default_key (uri : String) (m : AttrMap)
    (hmd : (m.map Prod.fst).Nodup) (k s : String)
    (hb : lookupA k (opAttributesBase uri) = some (JVal.str s)) :
    lookupA k (mergeEntries (opAttributesBase uri) m) =
      some ((lookupA k m).getD (JVal.str s)) := by
  cases h : lookupA k m with
  | none =>
    rw [lookupA_mergeEntries_of_none _ _ _ h, hb]
    rfl
  | some v =>
    rw [lookupA_mergeEntries_of_some _ _ _ _ hmd h, hb]
    simp [mergeInto, mergeVal_str]

/-- Claim C5: `_message` deep-merges the caller structure into the base
template; in the built request's operation-attributes group each of the
four defaults (charset utf-8, language en-US, the client's printer URI,
requesting-user-name PythonIPP) is overridden field-wise by a
caller-supplied value and present unchanged when the caller does not
override it. `m` is the caller's operation-attributes mapping (`[]` when
the caller supplies none). -/
theorem message_opattr_defaults (ver : Nat × Nat) (uri : String) (op : Int)
    (msg m : AttrMap) (hnd : (msg.map Prod.fst).Nodup)
    (hmd : (m.map Prod.fst).Nodup)
    (hm : lookupA "operation-attributes-tag" msg = some (JVal.dict m) ∨
      (lookupA "operation-attributes-tag" msg = none ∧ m = [])) :
    ∃ d, lookupA "operation-attributes-tag" (message ver uri op msg) =
        some (JVal.dict d) ∧
      lookupA "attributes-charset" d =
        some ((lookupA "attributes-charset" m).getD
          (JVal.str DEFAULT_CHARSET)) ∧
      lookupA "attributes-natural-language" d =
        some ((lookupA "attributes-natural-language" m).getD
          (JVal.str DEFAULT_CHARSET_LANGUAGE)) ∧
      lookupA "printer-uri" d =
        some ((lookupA "printer-uri" m).getD (JVal.str uri)) ∧
      lookupA "requesting-user-name" d =
        some ((lookupA "requesting-user-name" m).getD
          (JVal.str "PythonIPP")) := by
  unfold message
  rcases hm with hm | ⟨hm, hm0⟩
  · refine ⟨mergeEntries (opAttributesBase uri) m, ?_, ?_, ?_, ?_, ?_⟩
    · rw [lookupA_mergeEntries_of_some _ _ _ _ hnd hm]
      have hb : lookupA "operation-attributes-tag" (requestBase ver uri op) =
          some (JVal.dict (opAttributesBase uri)) := rfl
      rw [hb]
      simp [mergeInto, mergeVal_dict]
    all_goals {
      first
      | exact merged_default_key uri m hmd _ _ rfl
    }
  · subst hm0
    exact ⟨opAttributesBase uri, by
      rw [lookupA_mergeEntries_of_none _ _ _ hm]
      rfl, rfl, rfl, rfl, rfl⟩

/-- Witness for C5 at the `Get-Jobs` caller message: none of the four
defaults is overridden, so all four appear with their default values. -/
theorem message_opattr_defaults_witness :
    ∃ d, lookupA "operation-attributes-tag"
        (message DEFAULT_PROTO_VERSION "ipp://myhost:631/ipp/print" GET_JOBS
          (get_jobs_msg "completed")) = some (JVal.dict d) ∧
      lookupA "attributes-charset" d = some (JVal.str DEFAULT_CHARSET) ∧
      lookupA "attributes-natural-language" d =
        some (JVal.str DEFAULT_CHARSET_LANGUAGE) ∧
      lookupA "printer-uri" d =
        some (JVal.str "ipp://myhost:631/ipp/print") ∧
      lookupA "requesting-user-name" d = some (JVal.str "PythonIPP") :=
  message_opattr_defaults _ _ _ _
    [("which-jobs", JVal.str "completed"),
     ("requested-attributes", JVal.str "all")]
    (by decide) (by decide) (Or.inl rfl)

/-- Claim C7: the built request carries the caller-supplied request-id when
the caller's mapping provides one, and the `None` placeholder (deferring
assignment to the serializer) when it does not. -/
theorem message_request_id (ver : Nat × Nat) (uri : String) (op : Int)
    (msg : AttrMap) (hnd : (msg.map Prod.fst).Nodup) :
    lookupA "request-id" (message ver uri op msg) =
      some ((lookupA "request-id" msg).getD JVal.null) := by
  unfold message
  cases h : lookupA "request-id" msg with
  | none =>
    rw [lookupA_mergeEntries_of_none _ _ _ h]
    rfl
  | some v =>
    rw [lookupA_mergeEntries_of_some _ _ _ _ hnd h]
    have hb : lookupA "request-id" (requestBase ver uri op) = some JVal.null :=
      rfl
    rw [hb]
    simp [mergeInto, mergeVal_null]

/-- Witness for C7: with no caller-supplied request-id the placeholder
stays, and a caller-supplied one is carried through. -/
theorem message_request_id_witness :
    lookupA "request-id"
        (message DEFAULT_PROTO_VERSION "ipp://myhost:631/ipp/print" GET_JOBS
          (get_jobs_msg "not-completed")) = some JVal.null ∧
    lookupA "request-id"
        (message DEFAULT_PROTO_VERSION "ipp://myhost:631/ipp/print" GET_JOBS
          [("request-id", JVal.int 42)]) = some (JVal.int 42) :=
  ⟨message_request_id _ _ _ _ (by decide),
   message_request_id _ _ _ _ (by decide)⟩

/-- A parsed response as used by the jobs/printer helper witnesses:
successful status, one job record, one printer record. -/
def sampleResponse : ParsedResponse :=
  { statusCode := 0,
    jobs := [[("job-id", JVal.int 1)]],
    printers := [[("printer-name", JVal.str "myprinter")]] }

/-- Claim C6: on every successful response, `get_jobs` and
`get_job_attributes` return the parsed result's `jobs` sequence, and
`printer` builds its `Printer` from the first element of the parsed
`printers` sequence — an empty mapping when that sequence is empty. -/
theorem jobs_and_printer_projections (net : NetFn) (ver : Nat × Nat)
    (uri : String) (w : String) (jid : Int) (r1 r2 r3 : ParsedResponse)
    (h1 : execute net ver uri GET_JOBS (get_jobs_msg w) = Except.ok r1)
    (h2 : execute net ver uri GET_JOB_ATTRIBUTES
      (get_job_attributes_msg jid) = Except.ok r2)
    (h3 : execute net ver uri GET_PRINTER_ATTRIBUTES printer_msg =
      Except.ok r3) :
    get_jobs net ver uri w = Except.ok r1.jobs ∧
    get_job_attributes net ver uri jid = Except.ok r2.jobs ∧
    printer net ver uri none = Except.ok (printer_step none r3) ∧
    (printer_step none r3).1 =
      Printer_from_dict ((r3.printers.head?).getD []) ∧
    (r3.printers = [] → (printer_step none r3).1 = Printer_from_dict []) := by
  refine ⟨?_, ?_, ?_, rfl, ?_⟩
  · simp only [get_jobs, h1]
    rfl
  · simp only [get_job_attributes, h2]
    rfl
  · simp only [printer, h3]
    rfl
  · intro h
    simp [printer_step, h, Printer_from_dict]

/-- Witness for C6 at a constant transport returning `sampleResponse`. -/
theorem jobs_and_printer_projections_witness :
    get_jobs (fun _ => Except.ok sampleResponse) (2, 0)
        "ipp://myhost:631/ipp/print" "not-completed" =
      Except.ok sampleResponse.jobs ∧
    get_job_attributes (fun _ => Except.ok sampleResponse) (2, 0)
        "ipp://myhost:631/ipp/print" 7 =
      Except.ok sampleResponse.jobs ∧
    printer (fun _ => Except.ok sampleResponse) (2, 0)
        "ipp://myhost:631/ipp/print" none =
      Except.ok (printer_step none sampleResponse) ∧
    (printer_step none sampleResponse).1 =
      Printer_from_dict ((sampleResponse.printers.head?).getD []) ∧
    (sampleResponse.printers = [] →
      (printer_step none sampleResponse).1 = Printer_from_dict []) :=
  jobs_and_printer_projections _ _ _ _ _ _ _ _ rfl rfl rfl

/-- Counterexample to claim C8 as stated: the client does hold decoded
state across request/response cycles — after one `printer()` call on a
fresh client the `_printer` field is no longer `None`, so the decoded
`Printer` persists beyond the cycle that produced it. -/
theorem printer_cache_counterexample :
    (printer_step none sampleResponse).2 ≠ none := by
  simp [printer_step]

/-- Claim C8 amended: `printer()` caches its `Printer` in the client's
`_printer` field across calls — the first call stores the `Printer` built
by `from_dict` from the first decoded printer mapping, every later call
stores the result of `update_from_dict` on the cached `Printer`, and the
returned `Printer` is exactly the cached one. -/
theorem printer_cache_update (r : ParsedResponse) (c : Option PrinterM) :
    (printer_step c r).2 = some (printer_step c r).1 ∧
    (printer_step none r).1 =
      Printer_from_dict ((r.printers.head?).getD []) ∧
    ∀ p, (printer_step (some p) r).1 =
      Printer_update_from_dict p ((r.printers.head?).getD []) := by
  refine ⟨?_, rfl, fun p => rfl⟩
  cases c <;> rfl

/-- Claim C9: for a host beginning `ipp://` or `ipps://`, `__post_init__`
keeps the original string as the printer URI, sets TLS exactly when the
scheme is `ipps`, and takes host, port and base path from the URI (keeping
the configured host/port when the URI carries none); for any other host the
printer URI is built from scheme (`ipps` when TLS), host, port and base
path. -/
theorem post_init_model (c : IPPConfig) :
    ((strStartsWith c.host "ipp://" || strStartsWith c.host "ipps://") =
        true →
      (post_init c).printer_uri = c.host ∧
      ((post_init c).tls = true ↔
        (parse_printer_uri c.host).scheme = "ipps") ∧
      (post_init c).host = (parse_printer_uri c.host).host.getD c.host ∧
      (post_init c).port = (parse_printer_uri c.host).port.getD c.port ∧
      (post_init c).base_path = (parse_printer_uri c.host).path) ∧
    ((strStartsWith c.host "ipp://" || strStartsWith c.host "ipps://") =
        false →
      post_init c = { c with printer_uri := build_printer_uri c }) := by
  constructor
  · intro h
    unfold post_init
    rw [if_pos h]
    refine ⟨rfl, ?_, rfl, rfl, rfl⟩
    simp
  · intro h
    unfold post_init
    rw [if_neg]
    simp [h]

/-- Witness for C9: a TLS printer URI with explicit port, and a bare
hostname falling back to the built URI. -/
theorem post_init_model_witness :
    ((post_init { host := "ipps://printer.local:9100/ipp/print" }).printer_uri =
        "ipps://printer.local:9100/ipp/print" ∧
      ((post_init { host := "ipps://printer.local:9100/ipp/print" }).tls =
          true ↔
        (parse_printer_uri "ipps://printer.local:9100/ipp/print").scheme =
          "ipps") ∧
      (post_init { host := "ipps://printer.local:9100/ipp/print" }).host =
        (parse_printer_uri "ipps://printer.local:9100/ipp/print").host.getD
          "ipps://printer.local:9100/ipp/print" ∧
      (post_init { host := "ipps://printer.local:9100/ipp/print" }).port =
        (parse_printer_uri "ipps://printer.local:9100/ipp/print").port.getD
          631 ∧
      (post_init { host := "ipps://printer.local:9100/ipp/print" }).base_path =
        (parse_printer_uri "ipps://printer.local:9100/ipp/print").path) ∧
    post_init { host := "myhost" } =
      { host := "myhost",
        printer_uri := build_printer_uri { host := "myhost" } } :=
  ⟨(post_init_model { host := "ipps://printer.local:9100/ipp/print" }).1
      (by decide),
   (post_init_model { host := "myhost" }).2 (by decide)⟩

/-- Claim C10: `get_all_jobs` returns the not-completed jobs sequence
(from `get_jobs` with its default `which_jobs`, which is "not-completed")
followed by the completed jobs sequence (from `which_jobs` "completed"),
in that order. -/
theorem get_all_jobs_concat (net : NetFn) (ver : Nat × Nat) (uri : String)
    (a b : List AttrMap)
    (h1 : get_jobs net ver uri "not-completed" = Except.ok a)
    (h2 : get_jobs net ver uri "completed" = Except.ok b) :
    get_all_jobs net ver uri = Except.ok (a ++ b) := by
  unfold get_all_jobs
  simp only [h1, h2]
  rfl

/-- Witness for C10 at a constant transport: both fetches return the same
single job record, and the concatenation keeps the order. -/
theorem get_all_jobs_concat_witness :
    get_all_jobs (fun _ => Except.ok sampleResponse) (2, 0)
        "ipp://myhost:631/ipp/print" =
      Except.ok (sampleResponse.jobs ++ sampleResponse.jobs) :=
  get_all_jobs_concat _ _ _ _ _ rfl rfl
